import Mathlib

/-!
Verification development for the ScrewdriverHolderGenerator repository.

The Python sources under `ScrewdriverHolderGenerator/lib/` are embedded
shallowly: millimetre-valued floats become rationals (`ℚ`), Python dicts
keyed by integer grid indices become total functions `Int → ℚ` together
with an explicit occupancy predicate, and functions that can raise become
`Except String` or `Option` values.  The Fusion 360 modeling backend is an
external collaborator: the build functions are embedded as emitters of an
ordered list of abstract modeling operations (`ApiCall`), and the mutable
B-rep body owned by the backend is passed in explicitly as the list of
circular edges visible at each of the two edge-scan points
(`_chamfer_holes` and the countersink branch of `_create_mount_holes`).
-/

/-- `lib/csv_reader.py` `Tool` dataclass: one tool descriptor. -/
structure Tool where
  name : String
  row : Int
  col : Int
  handle_d_mm : ℚ
  shaft_d_mm : ℚ
  enabled : Bool := true
  deriving DecidableEq, Repr

/-- The numeric (length, mm) user parameters read by the core, one field per
entry of `PARAM_DEFS` in `lib/params.py`. -/
structure Params where
  handle_x_pad : ℚ
  handle_y_pad : ℚ
  edge_margin_x : ℚ
  edge_margin_y : ℚ
  min_web : ℚ
  row_z_step : ℚ
  base_thickness : ℚ
  min_floor_thickness : ℚ
  hole_buffer : ℚ
  hole_chamfer_d : ℚ
  hole_chamfer_depth : ℚ
  text_y_dist : ℚ
  text_height : ℚ
  emboss_height : ℚ
  mount_hole_d : ℚ
  mount_hole_edge_offset_x : ℚ
  mount_hole_edge_offset_y : ℚ
  cbore_d : ℚ
  cbore_depth : ℚ
  csk_d : ℚ

/-- The default values of the length parameters from `PARAM_DEFS` in
`lib/params.py` (in millimetres). -/
def default_params : Params where
  handle_x_pad := 6
  handle_y_pad := 6
  edge_margin_x := 10
  edge_margin_y := 10
  min_web := 3
  row_z_step := 8
  base_thickness := 12
  min_floor_thickness := 8
  hole_buffer := 3/5
  hole_chamfer_d := 2
  hole_chamfer_depth := 3/2
  text_y_dist := 4
  text_height := 5
  emboss_height := 4/5
  mount_hole_d := 26/5
  mount_hole_edge_offset_x := 12
  mount_hole_edge_offset_y := 12
  cbore_d := 19/2
  cbore_depth := 3
  csk_d := 10

/-- `_mm_to_cm` from `lib/geometry.py`: Fusion's internal length unit is cm. -/
def mm_to_cm (value_mm : ℚ) : ℚ := value_mm / 10

/-! ## Layout engine (`lib/layout.py`) -/

/-- Whether some tool in the list occupies column `c` (i.e. whether the
Python dict `col_max` has key `c`). -/
def col_occ (tools : List Tool) (c : Int) : Bool :=
  tools.any fun t => t.col == c

/-- Whether some tool in the list occupies row `r`. -/
def row_occ (tools : List Tool) (r : Int) : Bool :=
  tools.any fun t => t.row == r

/-- The `col_max` loop of `compute_layout`: running maximum of the handle
diameters seen in column `c`, seeded with `0.0` exactly as
`col_max.get(tool.col, 0.0)` does. -/
def col_max (tools : List Tool) (c : Int) : ℚ :=
  tools.foldl (fun acc t => if t.col == c then max acc t.handle_d_mm else acc) 0

/-- The `row_max` loop of `compute_layout`. -/
def row_max (tools : List Tool) (r : Int) : ℚ :=
  tools.foldl (fun acc t => if t.row == r then max acc t.handle_d_mm else acc) 0

/-- Content of the `col_widths` dict after the `setdefault` loop: occupied
columns are sized by their largest occupant, every other index defaults to
`min_web`. -/
def col_width (tools : List Tool) (p : Params) (c : Int) : ℚ :=
  if col_occ tools c then
    max (col_max tools c + p.handle_x_pad) (col_max tools c + p.min_web)
  else p.min_web

/-- Content of the `row_depths` dict after the `setdefault` loop. -/
def row_depth (tools : List Tool) (p : Params) (r : Int) : ℚ :=
  if row_occ tools r then
    max (row_max tools r + p.handle_y_pad) (row_max tools r + p.min_web)
  else p.min_web

/-- `_prefix_sum(values, idx)` from `compute_layout`:
`sum(values[i] for i in range(idx))`; an empty sum when `idx ≤ 0`. -/
def sum_upto (f : Int → ℚ) (idx : Int) : ℚ :=
  ∑ i ∈ Finset.range idx.toNat, f i

/-- `max(col_widths.keys())`: the largest occupied column index.  Only
meaningful for non-empty tool lists (Python raises `ValueError` on an empty
dict; `compute_layout` guards this with `Option`). -/
def max_col_of (tools : List Tool) : Int :=
  match tools with
  | [] => 0
  | t :: ts => ts.foldl (fun m u => max m u.col) t.col

/-- `max(row_depths.keys())`: the largest occupied row index. -/
def max_row_of (tools : List Tool) : Int :=
  match tools with
  | [] => 0
  | t :: ts => ts.foldl (fun m u => max m u.row) t.row

/-- The `Layout` dataclass from `lib/layout.py`.  The dicts become total
functions; `centers` is meaningful only at `(row, col)` pairs occupied by a
tool. -/
structure Layout where
  col_widths : Int → ℚ
  row_depths : Int → ℚ
  centers : Int × Int → ℚ × ℚ
  part_width_mm : ℚ
  part_depth_mm : ℚ
  max_row : Int
  max_col : Int

/-- The body of `compute_layout` (everything after the empty-list failure
point): the value Python returns for a non-empty tool list. -/
def compute_layout' (tools : List Tool) (p : Params) : Layout :=
  let cw := col_width tools p
  let rd := row_depth tools p
  let mc := max_col_of tools
  let mr := max_row_of tools
  { col_widths := cw
    row_depths := rd
    centers := fun rc =>
      (p.edge_margin_x + sum_upto cw rc.2 + cw rc.2 / 2,
       p.edge_margin_y + sum_upto rd rc.1 + rd rc.1 / 2)
    part_width_mm := 2 * p.edge_margin_x + sum_upto cw (mc + 1)
    part_depth_mm := 2 * p.edge_margin_y + sum_upto rd (mr + 1)
    max_row := mr
    max_col := mc }

/-- `compute_layout` from `lib/layout.py`.  On an empty tool list Python
raises `ValueError` at `max(col_widths.keys())`; this is modelled as
`none`. -/
def compute_layout (tools : List Tool) (p : Params) : Option Layout :=
  if tools.isEmpty then none else some (compute_layout' tools p)

/-! ## Validator (`lib/validate.py`) -/

/-- `validate_tools` from `lib/validate.py`: the per-tool loop with its
`seen` dict of `(row, col)` keys. -/
def validate_tools_aux (seen : List (Int × Int)) : List Tool → Except String Unit
  | [] => .ok ()
  | t :: ts =>
    if t.name = "" then .error "Tool name must be non-empty."
    else if t.row < 0 ∨ t.col < 0 then
      .error ("Invalid row/col for tool '" ++ t.name ++ "'.")
    else if t.handle_d_mm ≤ 0 ∨ t.shaft_d_mm ≤ 0 then
      .error ("Invalid diameters for tool '" ++ t.name ++ "'.")
    else if (t.row, t.col) ∈ seen then
      .error ("Duplicate row/col for '" ++ t.name ++ "'.")
    else validate_tools_aux ((t.row, t.col) :: seen) ts

/-- `validate_tools` from `lib/validate.py`. -/
def validate_tools (tools : List Tool) : Except String Unit :=
  if tools = [] then .error "No enabled tools found in CSV."
  else validate_tools_aux [] tools

/-- The required minimum centre separation used by `validate_spacing`:
`(shaftA + shaftB) / 2 + min_web`. -/
def min_sep (p : Params) (a b : Tool) : ℚ :=
  (a.shaft_d_mm + b.shaft_d_mm) / 2 + p.min_web

/-- The spacing condition `validate_spacing` rejects for a pair: they share
a row and their centre X distance is below the minimum, or they share a
column and their centre Y distance is below the minimum. -/
def spacing_violation (centers : Int × Int → ℚ × ℚ) (p : Params) (a b : Tool) : Prop :=
  (a.row = b.row ∧
    |(centers (a.row, a.col)).1 - (centers (b.row, b.col)).1| < min_sep p a b) ∨
  (a.col = b.col ∧
    |(centers (a.row, a.col)).2 - (centers (b.row, b.col)).2| < min_sep p a b)

instance (centers : Int × Int → ℚ × ℚ) (p : Params) (a b : Tool) :
    Decidable (spacing_violation centers p a b) := by
  unfold spacing_violation; infer_instance

/-- The body of the inner loop of `validate_spacing` for one pair: the row
check runs first, then the column check, each raising on violation. -/
def check_pair (centers : Int × Int → ℚ × ℚ) (p : Params) (a b : Tool) :
    Except String Unit :=
  if a.row = b.row ∧
      |(centers (a.row, a.col)).1 - (centers (b.row, b.col)).1| < min_sep p a b then
    .error ("Hole spacing too tight between '" ++ a.name ++ "' and '" ++ b.name ++ "'.")
  else if a.col = b.col ∧
      |(centers (a.row, a.col)).2 - (centers (b.row, b.col)).2| < min_sep p a b then
    .error ("Hole spacing too tight between '" ++ a.name ++ "' and '" ++ b.name ++ "'.")
  else .ok ()

/-- The inner loop of `validate_spacing`: check tool `a` against every
later tool, stopping at the first violation. -/
def check_against (centers : Int × Int → ℚ × ℚ) (p : Params) (a : Tool) :
    List Tool → Except String Unit
  | [] => .ok ()
  | b :: bs =>
    match check_pair centers p a b with
    | .error e => .error e
    | .ok () => check_against centers p a bs

/-- `validate_spacing` from `lib/validate.py`: the `O(n²)` pairwise scan
over index pairs `i < j`. -/
def validate_spacing (tools : List Tool) (centers : Int × Int → ℚ × ℚ)
    (p : Params) : Except String Unit :=
  match tools with
  | [] => .ok ()
  | a :: rest =>
    match check_against centers p a rest with
    | .error e => .error e
    | .ok () => validate_spacing rest centers p

/-! ## CSV reader (`lib/csv_reader.py`) -/

/-- An ASCII whitespace character, as Python `str.strip()` removes. -/
def is_ws (c : Char) : Bool :=
  c = ' ' ∨ c = '\t' ∨ c = '\n' ∨ c = '\r'

/-- Python's `str.strip()`: leading and trailing whitespace removed. -/
def py_strip (s : String) : String :=
  ⟨((s.data.dropWhile is_ws).reverse.dropWhile is_ws).reverse⟩

/-- `_parse_bool` from `lib/csv_reader.py`: `None` and blank (after
trimming) mean enabled; only the four listed strings disable a record. -/
def _parse_bool (value : Option String) : Bool :=
  match value with
  | none => true
  | some s =>
    let s := py_strip s
    if s = "" then true
    else !(s == "0" || s == "false" || s == "False" || s == "FALSE")

/-- An unsigned decimal digit run as a natural number; `none` when empty
or containing a non-digit. -/
def digits_to_nat? (l : List Char) : Option ℕ :=
  if l ≠ [] ∧ l.all (fun c => c.isDigit) then
    some (l.foldl (fun a c => 10 * a + (c.toNat - 48)) 0)
  else none

/-- Python's `int(...)` on a CSV cell, simplified to optionally signed
decimal digits (the cases Python accepts beyond this do not matter for the
claims).  `none` models a raised `ValueError`/`TypeError`. -/
def parse_int? (v : Option String) : Option Int :=
  match v with
  | none => none
  | some s =>
    match (py_strip s).data with
    | '-' :: rest => (digits_to_nat? rest).map fun n => -(n : Int)
    | '+' :: rest => (digits_to_nat? rest).map fun n => (n : Int)
    | l => (digits_to_nat? l).map fun n => (n : Int)

/-- Split a character list at the first occurrence of `sep`: the part
before it, and the part after it when present. -/
def split_first (sep : Char) : List Char → List Char × Option (List Char)
  | [] => ([], none)
  | c :: cs =>
    if c = sep then ([], some cs)
    else
      let r := split_first sep cs
      (c :: r.1, r.2)

/-- An unsigned decimal `digits[.digits]` value. -/
def decimal_to_rat? (l : List Char) : Option ℚ :=
  match split_first '.' l with
  | (ip, none) => (digits_to_nat? ip).map fun n => (n : ℚ)
  | (ip, some fp) =>
    match digits_to_nat? ip, digits_to_nat? fp with
    | some n, some f => some ((n : ℚ) + (f : ℚ) / ((10 : ℚ) ^ fp.length))
    | _, _ => none

/-- Python's `float(...)` on a CSV cell, simplified to optionally signed
decimal notation `digits[.digits]`. -/
def parse_rat? (v : Option String) : Option ℚ :=
  match v with
  | none => none
  | some s =>
    match (py_strip s).data with
    | '-' :: rest => (decimal_to_rat? rest).map Neg.neg
    | '+' :: rest => (decimal_to_rat? rest).map fun q => q
    | l => decimal_to_rat? l

/-- One record of the tabular descriptor input: the values `DictReader`
yields for the five required columns and the optional `enabled` column
(`none` models a missing value). -/
structure CsvRecord where
  name : Option String
  row : Option String
  col : Option String
  handle_d_mm : Option String
  shaft_d_mm : Option String
  enabled : Option String
  deriving DecidableEq, Repr

/-- The per-record body of the loop in `read_tools_from_csv`: the name is
trimmed, then the enabled flag is tested, and only for enabled records are
the numeric fields parsed.  `ok none` is a skipped (disabled) record;
`error` models a raised parse exception. -/
def read_tool (r : CsvRecord) : Except String (Option Tool) :=
  let name := py_strip (r.name.getD "")
  if !_parse_bool r.enabled then .ok none
  else
    match parse_int? r.row, parse_int? r.col,
        parse_rat? r.handle_d_mm, parse_rat? r.shaft_d_mm with
    | some row, some col, some h, some s =>
      .ok (some { name := name, row := row, col := col,
                  handle_d_mm := h, shaft_d_mm := s, enabled := true })
    | _, _, _, _ => .error "invalid numeric field"

/-- The record loop of `read_tools_from_csv` from `lib/csv_reader.py`
(applied to the already-split records; file I/O and the header check are
external).  The first failing enabled record aborts the read. -/
def read_tools_from_csv : List CsvRecord → Except String (List Tool)
  | [] => .ok []
  | r :: rest =>
    match read_tool r with
    | .error e => .error e
    | .ok none => read_tools_from_csv rest
    | .ok (some t) =>
      match read_tools_from_csv rest with
      | .error e => .error e
      | .ok ts => .ok (t :: ts)

/-! ## Geometry planner (`lib/geometry.py`)

The build functions are embedded as emitters of an ordered list of
abstract modeling operations.  Construction-plane and sketch creation are
recorded inside the operation that consumes them (the `Plane` field);
lengths inside operations are in millimetres except where the source
compares centimetre values (edge matching). -/

/-- A sketch plane: an offset of the XY construction plane (offset = world
Z, mm) or of the XZ construction plane (offset = world Y, mm). -/
inductive Plane where
  | xy (z_off : ℚ)
  | xz (y_off : ℚ)
  deriving DecidableEq, Repr

/-- `adsk.fusion.FeatureOperations` as used by the source. -/
inductive FeatureOp where
  | newBody
  | join
  | cut
  deriving DecidableEq, Repr

/-- One modeling operation issued against the backend.  `addSimpleRect` is
an `extrudeFeatures.addSimple` on a single rectangle profile;
`addSimpleProfile` is an `addSimple` on a text-region profile;
`addCutThroughAll` / `addCutDistance` are `createInput`+`add` cut extrudes;
the two chamfer constructors carry their centimetre-valued inputs. -/
inductive ApiCall where
  | addSimpleRect (pl : Plane) (x1 y1 x2 y2 : ℚ) (dist : ℚ) (op : FeatureOp)
  | addSimpleProfile (dist : ℚ) (op : FeatureOp)
  | addCutThroughAll (positive_dir : Bool)
  | addCutDistance (dist : ℚ)
  | addChamferTwoDist (depth_cm width_cm : ℚ)
  | addChamferDistAngle (dist_cm : ℚ) (half_angle_deg : ℚ)
  | addText (nm : String) (x y : ℚ) (pl : Plane)
  deriving DecidableEq, Repr

/-- A circular B-rep edge as the backend reports it through
`enumerateEdges`: `circular` models `isinstance(geom, Circle3D)`; centre
coordinates and radius are in centimetres as Fusion stores them. -/
structure Edge where
  circular : Bool
  cx : ℚ
  cy : ℚ
  cz : ℚ
  radius : ℚ
  deriving DecidableEq, Repr

/-- The host document state `build_holder` branches on: the component
names of the root's occurrences and the number of bodies directly on the
root component. -/
structure DesignState where
  occ_names : List String
  root_bodies : Nat
  deriving DecidableEq, Repr

/-- The outcome of one `build_holder` run: the mutated document state, the
accumulated non-fatal warnings, and the ordered operation plan. -/
structure BuildResult where
  state : DesignState
  warnings : List String
  ops : List ApiCall

/-- The generated component's identity (`"ScrewdriverHolder_GEN"`). -/
def gen_name : String := "ScrewdriverHolder_GEN"

/-- `base_depth` as computed in `_build_base` and `_create_mount_holes`:
`edge_margin_y + sum(row_depths[i] for i in range(max_row + 1))` — the
front margin plus all row depths, deliberately without the back margin. -/
def base_depth (L : Layout) (p : Params) : ℚ :=
  p.edge_margin_y + sum_upto L.row_depths (L.max_row + 1)

/-- `_build_base` from `lib/geometry.py`: one rectangle from `(0, 0)` to
`(part_width_mm, base_depth)` on the XY plane, extruded by
`base_thickness` as a new body. -/
def _build_base (L : Layout) (p : Params) : ApiCall :=
  .addSimpleRect (.xy 0) 0 0 L.part_width_mm (base_depth L p) p.base_thickness .newBody

/-- `_build_steps` from `lib/geometry.py`: for each row `1 ≤ k ≤ max_row`,
a rectangle on the plane at `z = base_thickness + (k-1)·row_z_step` from
`(0, edge_margin_y + Σ_{i<k} row_depths i)` to
`(part_width_mm, part_depth_mm - edge_margin_y)`, extruded by `row_z_step`
and joined. -/
def _build_steps (L : Layout) (p : Params) : List ApiCall :=
  if L.max_row < 1 then []
  else
    (List.range L.max_row.toNat).map fun (i : ℕ) =>
      let row : Int := (i : Int) + 1
      .addSimpleRect (.xy (p.base_thickness + ((row : ℚ) - 1) * p.row_z_step))
        0 (p.edge_margin_y + sum_upto L.row_depths row)
        L.part_width_mm (L.part_depth_mm - p.edge_margin_y)
        p.row_z_step .join

/-- `_create_tool_holes` from `lib/geometry.py`: one circle per tool on a
single base-plane sketch, then one through-all cut per resulting profile
(one per circle), in the positive direction. -/
def _create_tool_holes (tools : List Tool) : List ApiCall :=
  tools.map fun _ => .addCutThroughAll true

/-- The tolerance `tol = 1e-4` (centimetre units) of the edge scans. -/
def edge_tol : ℚ := 1 / 10000

/-- The centre-match test of `_collect_hole_edges`: all three coordinates
of the edge's centre (cm) within `tol` of the expected millimetre position
converted to cm. -/
def edge_matches (e : Edge) (x_mm y_mm z_mm : ℚ) : Bool :=
  |e.cx - mm_to_cm x_mm| < edge_tol ∧ |e.cy - mm_to_cm y_mm| < edge_tol ∧
    |e.cz - mm_to_cm z_mm| < edge_tol

/-- The keys of the `centers` dict in iteration (= first-insertion) order:
the `(row, col)` of each tool, first occurrence kept. -/
def centers_keys (tools : List Tool) : List (Int × Int) :=
  tools.foldl
    (fun acc t => if (t.row, t.col) ∈ acc then acc else acc ++ [(t.row, t.col)]) []

/-- The expected hole-top height of a row:
`base_thickness + row · row_z_step` (the `row_zs` dict). -/
def row_z (p : Params) (r : Int) : ℚ :=
  p.base_thickness + (r : ℚ) * p.row_z_step

/-- `_collect_hole_edges` from `lib/geometry.py`: scan the body's edges in
order; each circular edge is assigned to the first `centers` key whose
expected 3D hole-top position it matches; a later matching edge overwrites
an earlier one (dict assignment).  The resulting map is an association
list with the newest binding first. -/
def _collect_hole_edges (edges : List Edge) (tools : List Tool)
    (centers : Int × Int → ℚ × ℚ) (p : Params) : List ((Int × Int) × Edge) :=
  edges.foldl
    (fun m e =>
      if e.circular then
        match (centers_keys tools).find?
            (fun k => edge_matches e (centers k).1 (centers k).2 (row_z p k.1)) with
        | some k => (k, e) :: m
        | none => m
      else m) []

/-- Association-list lookup (Python `dict.get`). -/
def edge_lookup (m : List ((Int × Int) × Edge)) (k : Int × Int) : Option Edge :=
  (m.find? fun kv => kv.1 == k).map fun kv => kv.2

/-- The warning `_chamfer_holes` records for a tool with no matching edge. -/
def chamfer_warn (t : Tool) : String :=
  "Could not find chamfer edge for " ++ t.name ++ "."

/-- The per-tool loop of `_chamfer_holes`: an unmatched tool appends a
warning; a matched tool issues a two-distance chamfer with depth
`hole_chamfer_depth` and width `hole_chamfer_d / 2` (cm). -/
def _chamfer_holes_aux (m : List ((Int × Int) × Edge)) (p : Params) :
    List Tool → List ApiCall × List String
  | [] => ([], [])
  | t :: ts =>
    let rest := _chamfer_holes_aux m p ts
    match edge_lookup m (t.row, t.col) with
    | none => (rest.1, chamfer_warn t :: rest.2)
    | some _ =>
      (.addChamferTwoDist (mm_to_cm p.hole_chamfer_depth) (mm_to_cm (p.hole_chamfer_d / 2))
          :: rest.1,
        rest.2)

/-- `_chamfer_holes` from `lib/geometry.py`, taking the backend body's edge
list explicitly. -/
def _chamfer_holes (edges : List Edge) (tools : List Tool) (L : Layout)
    (p : Params) : List ApiCall × List String :=
  _chamfer_holes_aux (_collect_hole_edges edges tools L.centers p) p tools

/-- The warning `_add_text_labels` records when a label is clamped. -/
def clamp_warn (t : Tool) : String :=
  "Text for " ++ t.name ++ " clamped to row boundary."

/-- The label Y position of one tool with the two sequential clamps of
`_add_text_labels`, together with the warnings it generates (both clamps
can fire when the row is narrower than `2·min_web`). -/
def label_y (t : Tool) (y_center row_start row_end : ℚ) (p : Params) :
    ℚ × List String :=
  let y0 := y_center - (t.handle_d_mm / 2 + p.text_y_dist)
  let s1 := if y0 < row_start + p.min_web
    then (row_start + p.min_web, [clamp_warn t]) else (y0, [])
  if s1.1 > row_end - p.min_web
    then (row_end - p.min_web, s1.2 ++ [clamp_warn t]) else s1

/-- The rows in the iteration order of the `tools_by_row` dict: order of
each row's first occurrence in the tool list. -/
def rows_in_order (tools : List Tool) : List Int :=
  tools.foldl (fun acc t => if t.row ∈ acc then acc else acc ++ [t.row]) []

/-- One iteration of the row loop of `_add_text_labels`: a construction
plane at the row's platform top, one text region per tool of the row
(clamped into the row span), then one joined emboss extrusion per text
profile. -/
def label_row (tools : List Tool) (L : Layout) (p : Params) (r : Int) :
    List ApiCall × List String :=
  let z := p.base_thickness + (r : ℚ) * p.row_z_step
  let row_start := p.edge_margin_y + sum_upto L.row_depths r
  let row_end := row_start + L.row_depths r
  let rts := tools.filter fun t => t.row == r
  let placed := rts.map fun t =>
    (t, label_y t (L.centers (t.row, t.col)).2 row_start row_end p)
  let texts := placed.map fun tp =>
    ApiCall.addText tp.1.name (L.centers (tp.1.row, tp.1.col)).1 tp.2.1 (.xy z)
  let embosses := rts.map fun _ => ApiCall.addSimpleProfile p.emboss_height .join
  (texts ++ embosses, (placed.map fun tp => tp.2.2).flatten)

/-- `_add_text_labels` from `lib/geometry.py`: rows are processed in
first-occurrence order; warnings accumulate across rows. -/
def _add_text_labels (tools : List Tool) (L : Layout) (p : Params) :
    List ApiCall × List String :=
  ((rows_in_order tools).map fun r => label_row tools L p r).foldl
    (fun acc rw => (acc.1 ++ rw.1, acc.2 ++ rw.2)) ([], [])

/-- Python's `str.lower()` (ASCII range, which covers the mount-style
keywords) applied to one character. -/
def lower_char (c : Char) : Char :=
  if 'A' ≤ c ∧ c ≤ 'Z' then Char.ofNat (c.toNat + 32) else c

/-- Python's `str.lower()` as `mount_style.lower()` uses it. -/
def str_lower (s : String) : String := ⟨s.data.map lower_char⟩

/-- The countersink edge filter of `_create_mount_holes`: a circular edge
on the plate's back face (centre Y within `tol` of
`base_depth + wing_thickness`, cm) with the through-hole's own radius
(within `tol`).  The source skips when the deviation is `> tol`. -/
def csk_edge_matches (e : Edge) (back_y_cm radius_cm : ℚ) : Bool :=
  e.circular ∧ ¬(|e.cy - back_y_cm| > edge_tol) ∧ ¬(|e.radius - radius_cm| > edge_tol)

/-- `_create_mount_holes` from `lib/geometry.py`: the continuous back
plate joined onto the body, four through-all hole cuts (negative
direction), then the selected finishing: nothing for `none`, four
fixed-depth counterbore cuts for `counterbore`, or one distance-and-angle
chamfer per matching back-face edge for `countersink`.  `csk_edges` is the
backend body's edge list at the countersink scan. -/
def _create_mount_holes (L : Layout) (p : Params) (mount_style : String)
    (csk_angle_deg : ℚ) (csk_edges : List Edge) : List ApiCall :=
  let hole_d := p.mount_hole_d
  let wing_extension := p.mount_hole_edge_offset_x
  let wing_thickness := p.mount_hole_edge_offset_y
  let bd := base_depth L p
  let top_tier_z := p.base_thickness + (L.max_row : ℚ) * p.row_z_step
  let wing_z_height := top_tier_z + p.base_thickness
  let plate : ApiCall :=
    .addSimpleRect (.xz bd) (-wing_extension) (-wing_z_height)
      (L.part_width_mm + wing_extension) 0 wing_thickness .join
  let hole_cuts : List ApiCall :=
    [.addCutThroughAll false, .addCutThroughAll false,
     .addCutThroughAll false, .addCutThroughAll false]
  let ms := str_lower mount_style
  let finishing : List ApiCall :=
    if ms = "none" then []
    else
      (if ms = "counterbore" then
        [.addCutDistance p.cbore_depth, .addCutDistance p.cbore_depth,
         .addCutDistance p.cbore_depth, .addCutDistance p.cbore_depth]
       else []) ++
      (if ms = "countersink" then
        (csk_edges.filter fun e =>
            csk_edge_matches e (mm_to_cm (bd + wing_thickness)) (mm_to_cm (hole_d / 2))).map
          fun _ =>
            ApiCall.addChamferDistAngle (mm_to_cm ((p.csk_d - hole_d) / 2)) (csk_angle_deg / 2)
       else [])
  plate :: hole_cuts ++ finishing

/-- The full ordered operation plan of one `build_holder` run.  It depends
only on the validated inputs and the backend edge snapshots, not on the
host document state. -/
def build_ops (tools : List Tool) (L : Layout) (p : Params)
    (mount_style : String) (csk_angle_deg : ℚ)
    (cham_edges csk_edges : List Edge) : List ApiCall :=
  [_build_base L p] ++ _build_steps L p ++ _create_tool_holes tools ++
    (_chamfer_holes cham_edges tools L p).1 ++
    (_add_text_labels tools L p).1 ++
    _create_mount_holes L p mount_style csk_angle_deg csk_edges

/-- The warnings of one `build_holder` run: the chamfer warnings followed
by the label-clamp warnings (`_create_mount_holes` returns none). -/
def build_warnings (tools : List Tool) (L : Layout) (p : Params)
    (cham_edges : List Edge) : List String :=
  (_chamfer_holes cham_edges tools L p).2 ++ (_add_text_labels tools L p).2

/-- `build_holder` from `lib/geometry.py`.  On a fresh single-component
(Part) document it builds directly on the root; otherwise it deletes every
occurrence whose component is named `ScrewdriverHolder_GEN` and builds in
a fresh sub-component of that name. -/
def build_holder (d : DesignState) (tools : List Tool) (L : Layout) (p : Params)
    (mount_style : String) (csk_angle_deg : ℚ)
    (cham_edges csk_edges : List Edge) : BuildResult :=
  let single := d.occ_names.isEmpty && d.root_bodies == 0
  let state' : DesignState :=
    if single then { occ_names := d.occ_names, root_bodies := d.root_bodies + 1 }
    else { occ_names := (d.occ_names.filter fun s => s ≠ gen_name) ++ [gen_name],
           root_bodies := d.root_bodies }
  { state := state'
    warnings := build_warnings tools L p cham_edges
    ops := build_ops tools L p mount_style csk_angle_deg cham_edges csk_edges }

/-! ### Operation counters (the quantities the repository's API-call test
counts). -/

/-- `addSimple` calls (single-profile extrudes). -/
def is_add_simple : ApiCall → Bool
  | .addSimpleRect _ _ _ _ _ _ _ => true
  | .addSimpleProfile _ _ => true
  | _ => false

/-- `createInput`+`add` cut-style feature additions. -/
def is_cut_add : ApiCall → Bool
  | .addCutThroughAll _ => true
  | .addCutDistance _ => true
  | _ => false

/-- Chamfer feature additions (both profiles). -/
def is_chamfer : ApiCall → Bool
  | .addChamferTwoDist _ _ => true
  | .addChamferDistAngle _ _ => true
  | _ => false

/-- Two-distance (tool-hole) chamfers only. -/
def is_tool_chamfer : ApiCall → Bool
  | .addChamferTwoDist _ _ => true
  | _ => false

/-- Embossed text label regions. -/
def is_text : ApiCall → Bool
  | .addText _ _ _ _ => true
  | _ => false

/-- Through-all cut operations. -/
def is_through_all : ApiCall → Bool
  | .addCutThroughAll _ => true
  | _ => false

/-! ## General lemmas -/

lemma sum_upto_nonpos (f : Int → ℚ) (n : Int) (h : n ≤ 0) : sum_upto f n = 0 := by
  unfold sum_upto
  have h0 : n.toNat = 0 := by omega
  simp [h0]

lemma sum_upto_succ (f : Int → ℚ) (n : Int) (h : 0 ≤ n) :
    sum_upto f (n + 1) = sum_upto f n + f n := by
  unfold sum_upto
  have h1 : (n + 1).toNat = n.toNat + 1 := by omega
  rw [h1, Finset.sum_range_succ, Int.toNat_of_nonneg h]

lemma sum_upto_zero (f : Int → ℚ) : sum_upto f 0 = 0 :=
  sum_upto_nonpos f 0 le_rfl

lemma sum_upto_one (f : Int → ℚ) : sum_upto f 1 = f 0 := by
  have h1 : (1 : Int) = 0 + 1 := by norm_num
  rw [h1, sum_upto_succ f 0 le_rfl, sum_upto_zero, zero_add]

lemma sum_upto_two (f : Int → ℚ) : sum_upto f 2 = f 0 + f 1 := by
  have h2 : (2 : Int) = 1 + 1 := by norm_num
  rw [h2, sum_upto_succ f 1 (by norm_num), sum_upto_one]

lemma str_lower_none : str_lower "none" = "none" := rfl

lemma str_lower_cbore : str_lower "counterbore" = "counterbore" := rfl

lemma str_lower_csk : str_lower "countersink" = "countersink" := rfl

/-! ## The test scenario of `tests/test_api_calls.py` -/

/-- The two tools of the CSV in `test_api_calls_for_csv`:
`T10,0,0,18.0,5.0` and `PH2,1,0,22.0,6.4`, both enabled. -/
def c1_tools : List Tool :=
  [{ name := "T10", row := 0, col := 0, handle_d_mm := 18, shaft_d_mm := 5 },
   { name := "PH2", row := 1, col := 0, handle_d_mm := 22, shaft_d_mm := 32/5 }]

/-- The layout the pipeline computes for the scenario. -/
def c1_L : Layout := compute_layout' c1_tools default_params

/-- The backend body's circular edges after the tool-hole cuts, as the
repository's fake backend enumerates them (`_build_tool_edges` in
`tests/test_api_calls.py`): one hole-top circle per tool at the tool's
centre and its row's platform height. -/
def c1_cham_edges : List Edge :=
  c1_tools.map fun t =>
    { circular := true
      cx := mm_to_cm (c1_L.centers (t.row, t.col)).1
      cy := mm_to_cm (c1_L.centers (t.row, t.col)).2
      cz := mm_to_cm (row_z default_params t.row)
      radius := (t.shaft_d_mm + default_params.hole_buffer) / 20 }

/-- One full build of the scenario with default parameters and
`mount_style = "none"`. -/
def c1_res : BuildResult :=
  build_holder ⟨[], 0⟩ c1_tools c1_L default_params "none" 90 c1_cham_edges []

/-- C1 counterexample: in the scenario of the claim the build issues 5
single-profile extrude operations (base, one step, two label embossings,
one mounting plate), not 4 as claimed; the repository's own test asserting
4 predates the current geometry module (its fake root component also lacks
the `bRepBodies` attribute `build_holder` reads). -/
theorem scenario_extrude_count_ne_four :
    (c1_res.ops.filter is_add_simple).length ≠ 4 := by
  norm_num [c1_res, c1_L, c1_cham_edges, c1_tools, build_holder, build_ops,
    _build_base, _build_steps, _create_tool_holes, _chamfer_holes,
    _chamfer_holes_aux, _collect_hole_edges, centers_keys, edge_lookup,
    edge_matches, edge_tol, row_z, mm_to_cm, chamfer_warn,
    _add_text_labels, rows_in_order, label_row, label_y, clamp_warn,
    _create_mount_holes, csk_edge_matches, base_depth,
    compute_layout', col_width, col_occ, col_max, max_col_of,
    row_depth, row_occ, row_max, max_row_of,
    sum_upto_zero, sum_upto_one, sum_upto_two, default_params,
    List.find?, List.filter, is_add_simple,
    List.foldl, abs_of_nonneg, abs_of_nonpos,
    str_lower_none, str_lower_cbore, str_lower_csk]

/-- C1 (amended): with exactly the two enabled tools T10 (row 0, col 0,
handle 18, shaft 5) and PH2 (row 1, col 0, handle 22, shaft 6.4), all
parameters at their defaults and `mount_style = none`, the layout has
2 rows and 1 column (`maxRow = 1`, `maxCol = 0`) and the geometry build
issues exactly 5 single-profile extrude operations (base, 1 step, 2 label
embossings, 1 mounting plate), exactly 6 cut-style feature additions,
exactly 2 chamfer operations, and exactly 2 embossed text label regions
(one per row). -/
theorem scenario_counts :
    c1_L.max_row = 1 ∧ c1_L.max_col = 0 ∧
    (c1_res.ops.filter is_add_simple).length = 5 ∧
    (c1_res.ops.filter is_cut_add).length = 6 ∧
    (c1_res.ops.filter is_chamfer).length = 2 ∧
    (c1_res.ops.filter is_text).length = 2 := by
  norm_num [c1_res, c1_L, c1_cham_edges, c1_tools, build_holder, build_ops,
    _build_base, _build_steps, _create_tool_holes, _chamfer_holes,
    _chamfer_holes_aux, _collect_hole_edges, centers_keys, edge_lookup,
    edge_matches, edge_tol, row_z, mm_to_cm, chamfer_warn,
    _add_text_labels, rows_in_order, label_row, label_y, clamp_warn,
    _create_mount_holes, csk_edge_matches, base_depth,
    compute_layout', col_width, col_occ, col_max, max_col_of,
    row_depth, row_occ, row_max, max_row_of,
    sum_upto_zero, sum_upto_one, sum_upto_two, default_params,
    List.find?, List.filter, is_add_simple, is_cut_add, is_chamfer, is_text,
    List.foldl, abs_of_nonneg, abs_of_nonpos,
    str_lower_none, str_lower_cbore, str_lower_csk]

/-! ## Claims C2 and C3: base slab and stepped tiers -/

/-- C2 (amended): for every validated tool list and parameter set, the
tier-0 base created as a new body is a rectangular slab of thickness
`base_thickness` spanning in Y from the front edge (y = 0) to the back of
the occupied rows, i.e. its depth equals
`part_depth_mm - edge_margin_y = edge_margin_y + Σ rowDepths` — the back
margin is deliberately excluded (source comment: "Base covers all rows but
not the back margin"). -/
theorem base_slab_spec (tools : List Tool) (p : Params) (L : Layout)
    (h : compute_layout tools p = some L) :
    _build_base L p = ApiCall.addSimpleRect (.xy 0) 0 0 L.part_width_mm
      (L.part_depth_mm - p.edge_margin_y) p.base_thickness .newBody := by
  unfold compute_layout at h
  split at h
  · exact absurd h (by simp)
  · injection h with h
    subst h
    unfold _build_base base_depth compute_layout'
    simp only
    congr 1
    ring

/-- One enabled tool at the origin cell, used to instantiate the layout
claims on a concrete validated input. -/
def c2_tools : List Tool :=
  [{ name := "T10", row := 0, col := 0, handle_d_mm := 18, shaft_d_mm := 5 }]

/-- The layout of the one-tool input under default parameters. -/
def c2_L : Layout := compute_layout' c2_tools default_params

/-- C2 counterexample: for the single tool T10 under default parameters
the base slab's Y extent is 34 mm while `part_depth_mm` is 44 mm, so the
base depth does not equal `part_depth_mm` as the claim states (it is
shorter by the 10 mm back margin). -/
theorem base_depth_ne_part_depth :
    _build_base c2_L default_params =
      ApiCall.addSimpleRect (.xy 0) 0 0 44 34 12 .newBody ∧
    c2_L.part_depth_mm = 44 ∧ ((34 : ℚ) ≠ 44) := by
  refine ⟨?_, ?_, by norm_num⟩ <;>
  norm_num [c2_L, c2_tools, _build_base, base_depth, compute_layout',
    col_width, col_occ, col_max, max_col_of,
    row_depth, row_occ, row_max, max_row_of,
    sum_upto_zero, sum_upto_one, default_params]

/-- Witness for `base_slab_spec` at the concrete one-tool input. -/
theorem base_slab_spec_witness :
    _build_base c2_L default_params = ApiCall.addSimpleRect (.xy 0) 0 0
      c2_L.part_width_mm (c2_L.part_depth_mm - default_params.edge_margin_y)
      default_params.base_thickness .newBody :=
  base_slab_spec c2_tools default_params c2_L rfl

/-- The Y extent (second corner's y) of a rectangle extrude operation. -/
def rect_y2 : ApiCall → ℚ
  | .addSimpleRect _ _ _ _ y2 _ _ => y2
  | _ => 0

/-- C3 (amended): for every validated input and every tier `1 ≤ k ≤
maxRow`, tier `k` is sketched on a construction plane at
`z = base_thickness + (k-1)·row_z_step`, its rectangle spans the full part
width in X and, in Y, runs from `edge_margin_y` plus the cumulative depths
of rows before `k` to `part_depth_mm - edge_margin_y` (the back edge of
the base slab, not of the part), and it is extruded upward by `row_z_step`
and joined to the existing solid. -/
theorem step_rect_spec (tools : List Tool) (p : Params) (L : Layout)
    (h : compute_layout tools p = some L) (k : ℕ)
    (hk1 : 1 ≤ k) (hk2 : (k : Int) ≤ L.max_row) :
    (_build_steps L p)[k - 1]? = some (ApiCall.addSimpleRect
      (.xy (p.base_thickness + ((k : ℚ) - 1) * p.row_z_step)) 0
      (p.edge_margin_y + sum_upto L.row_depths (k : Int))
      L.part_width_mm (L.part_depth_mm - p.edge_margin_y) p.row_z_step .join) := by
  have hmr : ¬ L.max_row < 1 := by omega
  have hlt : k - 1 < L.max_row.toNat := by omega
  unfold _build_steps
  rw [if_neg hmr, List.getElem?_map]
  have hr : (List.range L.max_row.toNat)[k-1]? = some (k-1) := by
    simp [List.getElem?_range, hlt]
  rw [hr]
  simp only [Option.map_some']
  have hrow : ((k - 1 : ℕ) : Int) + 1 = (k : Int) := by omega
  congr 1
  simp only [hrow]
  push_cast
  ring_nf

/-- C3 counterexample: in the two-tool scenario under default parameters
the single step rectangle's far Y edge is 62 mm while `part_depth_mm` is
72 mm, so the step does not extend to the part's back edge
`y = part_depth_mm` as the claim states. -/
theorem step_rect_ne_back_edge :
    (_build_steps c1_L default_params).map rect_y2 = [62] ∧
    c1_L.part_depth_mm = 72 ∧ ((62 : ℚ) ≠ 72) := by
  refine ⟨?_, ?_, by norm_num⟩ <;>
  norm_num [c1_L, c1_tools, _build_steps, rect_y2, compute_layout',
    col_width, col_occ, col_max, max_col_of,
    row_depth, row_occ, row_max, max_row_of,
    sum_upto_zero, sum_upto_one, sum_upto_two, default_params,
    List.range_succ]

/-- Witness for `step_rect_spec` at tier 1 of the two-tool scenario. -/
theorem step_rect_spec_witness :
    (_build_steps c1_L default_params)[0]? = some (ApiCall.addSimpleRect
      (.xy (default_params.base_thickness + ((1 : ℚ) - 1) * default_params.row_z_step)) 0
      (default_params.edge_margin_y + sum_upto c1_L.row_depths (1 : Int))
      c1_L.part_width_mm (c1_L.part_depth_mm - default_params.edge_margin_y)
      default_params.row_z_step .join) :=
  step_rect_spec c1_tools default_params c1_L rfl 1 le_rfl
    (by norm_num [c1_L, c1_tools, compute_layout', max_row_of])

/-! ## Claims C9 and C7: layout domain and density -/

/-- C9: `compute_layout` is only defined for non-empty tool lists — for
every non-empty list of tools it returns a layout without error, but for
the empty list Python raises a `ValueError` (the maximum occupied index is
taken over an empty collection), modelled as `none`; so the empty-list
check in the Validator is a genuine precondition of the Layout Engine. -/
theorem compute_layout_empty_vs_nonempty :
    (∀ p : Params, compute_layout [] p = none) ∧
    ∀ (tools : List Tool) (p : Params), tools ≠ [] →
      (compute_layout tools p).isSome = true := by
  constructor
  · intro p; rfl
  · intro tools p h
    unfold compute_layout
    simp [h]

/-- Witness for `compute_layout_empty_vs_nonempty` at the empty list and a
concrete one-tool list. -/
theorem compute_layout_empty_vs_nonempty_witness :
    compute_layout [] default_params = none ∧
    (compute_layout c2_tools default_params).isSome = true :=
  ⟨compute_layout_empty_vs_nonempty.1 default_params,
   compute_layout_empty_vs_nonempty.2 c2_tools default_params (by simp [c2_tools])⟩

/-- A fold that only ever replaces the accumulator by a `max` with it
never decreases it. -/
lemma foldl_if_max_le (g : Tool → Bool) (f : Tool → ℚ) :
    ∀ (l : List Tool) (a : ℚ),
      a ≤ l.foldl (fun acc t => if g t then max acc (f t) else acc) a
  | [], a => le_refl a
  | t :: ts, a => by
    have step : a ≤ (if g t then max a (f t) else a) := by
      split
      · exact le_max_left a (f t)
      · exact le_refl a
    exact le_trans step (foldl_if_max_le g f ts _)

lemma col_max_nonneg (tools : List Tool) (c : Int) : 0 ≤ col_max tools c :=
  foldl_if_max_le (fun t => t.col == c) (fun t => t.handle_d_mm) tools 0

lemma row_max_nonneg (tools : List Tool) (r : Int) : 0 ≤ row_max tools r :=
  foldl_if_max_le (fun t => t.row == r) (fun t => t.handle_d_mm) tools 0

/-- C7: for every valid (non-empty, validated) tool list, the computed
layout is dense — every integer column index in `[0, maxCol]` and every
row index in `[0, maxRow]` has a defined cell size at least `min_web`,
with indices that have no occupant defaulting to exactly `min_web`.  (In
the embedding the dicts are total functions, so "defined" is witnessed by
the stated value.) -/
theorem grid_dense (tools : List Tool) (p : Params) (L : Layout)
    (h : compute_layout tools p = some L) (hv : validate_tools tools = .ok ())
    (idx : Int) (h0 : 0 ≤ idx) :
    (idx ≤ L.max_col →
      p.min_web ≤ L.col_widths idx ∧
        (col_occ tools idx = false → L.col_widths idx = p.min_web)) ∧
    (idx ≤ L.max_row →
      p.min_web ≤ L.row_depths idx ∧
        (row_occ tools idx = false → L.row_depths idx = p.min_web)) := by
  unfold compute_layout at h
  split at h
  · exact absurd h (by simp)
  · injection h with h
    subst h
    constructor
    · intro _
      constructor
      · show p.min_web ≤ col_width tools p idx
        unfold col_width
        split
        · calc p.min_web ≤ col_max tools idx + p.min_web := by
                have := col_max_nonneg tools idx; linarith
            _ ≤ max (col_max tools idx + p.handle_x_pad) (col_max tools idx + p.min_web) :=
                le_max_right _ _
        · exact le_refl _
      · intro hocc
        show col_width tools p idx = p.min_web
        unfold col_width
        rw [if_neg]
        simp [hocc]
    · intro _
      constructor
      · show p.min_web ≤ row_depth tools p idx
        unfold row_depth
        split
        · calc p.min_web ≤ row_max tools idx + p.min_web := by
                have := row_max_nonneg tools idx; linarith
            _ ≤ max (row_max tools idx + p.handle_y_pad) (row_max tools idx + p.min_web) :=
                le_max_right _ _
        · exact le_refl _
      · intro hocc
        show row_depth tools p idx = p.min_web
        unfold row_depth
        rw [if_neg]
        simp [hocc]

/-- Witness for `grid_dense` at the validated one-tool input, index 0. -/
theorem grid_dense_witness :
    ((0 : Int) ≤ c2_L.max_col →
      default_params.min_web ≤ c2_L.col_widths 0 ∧
        (col_occ c2_tools 0 = false → c2_L.col_widths 0 = default_params.min_web)) ∧
    ((0 : Int) ≤ c2_L.max_row →
      default_params.min_web ≤ c2_L.row_depths 0 ∧
        (row_occ c2_tools 0 = false → c2_L.row_depths 0 = default_params.min_web)) :=
  grid_dense c2_tools default_params c2_L rfl rfl 0 le_rfl

/-! ## Claim C8: spacing validation -/

lemma check_pair_ok_iff (centers : Int × Int → ℚ × ℚ) (p : Params) (a b : Tool) :
    check_pair centers p a b = .ok () ↔ ¬ spacing_violation centers p a b := by
  unfold check_pair spacing_violation
  split_ifs with h1 h2
  · constructor
    · intro hco; exact absurd hco (by simp)
    · intro hn; exact absurd (Or.inl h1) hn
  · constructor
    · intro hco; exact absurd hco (by simp)
    · intro hn; exact absurd (Or.inr h2) hn
  · constructor
    · intro _
      rintro (hv | hv)
      · exact h1 hv
      · exact h2 hv
    · intro _; rfl

lemma check_against_ok_iff (centers : Int × Int → ℚ × ℚ) (p : Params) (a : Tool)
    (l : List Tool) :
    check_against centers p a l = .ok () ↔
      ∀ b ∈ l, ¬ spacing_violation centers p a b := by
  induction l with
  | nil => simp [check_against]
  | cons b bs ih =>
    unfold check_against
    cases hcp : check_pair centers p a b with
    | error e =>
      have hv : spacing_violation centers p a b := by
        by_contra hnv
        rw [(check_pair_ok_iff centers p a b).mpr hnv] at hcp
        exact absurd hcp (by simp)
      constructor
      · intro hco; exact absurd hco (by simp)
      · intro hall; exact absurd hv (hall b (List.mem_cons_self b bs))
    | ok u =>
      cases u
      have hnv : ¬ spacing_violation centers p a b :=
        (check_pair_ok_iff centers p a b).mp hcp
      rw [ih]
      constructor
      · intro hall
        intro b' hb'
        rcases List.mem_cons.mp hb' with rfl | hb'
        · exact hnv
        · exact hall b' hb'
      · intro hall b' hb'
        exact hall b' (List.mem_cons_of_mem b hb')

/-- C8: `validate_spacing` raises a fatal validation error if and only if
some unordered pair of enabled tools shares a row with centre X distance
below `(shaftA + shaftB)/2 + min_web`, or shares a column with centre Y
distance below that minimum — equivalently, it returns normally (`ok`, a
pure value: the embedding has no state to change) if and only if every
pair of list positions `i < j` is free of a `spacing_violation`, which
`List.Pairwise` expresses. -/
theorem validate_spacing_iff (tools : List Tool) (centers : Int × Int → ℚ × ℚ)
    (p : Params) :
    validate_spacing tools centers p = .ok () ↔
      List.Pairwise (fun a b => ¬ spacing_violation centers p a b) tools := by
  induction tools with
  | nil => simp [validate_spacing]
  | cons a rest ih =>
    unfold validate_spacing
    cases hca : check_against centers p a rest with
    | error e =>
      have hnall : ¬ ∀ b ∈ rest, ¬ spacing_violation centers p a b := by
        intro hall
        rw [(check_against_ok_iff centers p a rest).mpr hall] at hca
        exact absurd hca (by simp)
      constructor
      · intro hco; exact absurd hco (by simp)
      · intro hpw
        rw [List.pairwise_cons] at hpw
        exact (hnall hpw.1).elim
    | ok u =>
      cases u
      rw [ih, List.pairwise_cons]
      have hall := (check_against_ok_iff centers p a rest).mp hca
      constructor
      · intro hpr; exact ⟨hall, hpr⟩
      · intro hpw; exact hpw.2

/-! ## Claim C10: disabled CSV records -/

lemma read_cons (r : CsvRecord) (rest : List CsvRecord) :
    read_tools_from_csv (r :: rest) =
      (match read_tool r with
       | .error e => .error e
       | .ok none => read_tools_from_csv rest
       | .ok (some t) =>
         match read_tools_from_csv rest with
         | .error e => .error e
         | .ok ts => .ok (t :: ts)) := rfl

lemma read_tool_disabled (r : CsvRecord) (h : _parse_bool r.enabled = false) :
    read_tool r = .ok none := by
  unfold read_tool
  rw [h]
  simp

lemma read_tool_enabled_flag (r : CsvRecord) (t : Tool)
    (h : read_tool r = .ok (some t)) : t.enabled = true := by
  unfold read_tool at h
  by_cases hb : _parse_bool r.enabled = true
  · rw [hb] at h
    simp only [Bool.not_true, Bool.false_eq_true, if_false] at h
    split at h
    · have ht : _ = t := Option.some.inj (Except.ok.inj h)
      subst ht
      rfl
    · exact absurd h (by simp)
  · have hb2 : _parse_bool r.enabled = false := by
      revert hb; cases _parse_bool r.enabled <;> simp
    rw [hb2] at h
    simp at h

lemma csv_skip_filter (rs : List CsvRecord) :
    read_tools_from_csv rs =
      read_tools_from_csv (rs.filter fun r => _parse_bool r.enabled) := by
  induction rs with
  | nil => rfl
  | cons r rest ih =>
    by_cases hb : _parse_bool r.enabled = true
    · have hf : List.filter (fun r => _parse_bool r.enabled) (r :: rest) =
          r :: List.filter (fun r => _parse_bool r.enabled) rest := by
        simp [List.filter_cons, hb]
      rw [hf, read_cons, read_cons, ih]
    · have hb2 : _parse_bool r.enabled = false := by
        revert hb; cases _parse_bool r.enabled <;> simp
      have hf : List.filter (fun r => _parse_bool r.enabled) (r :: rest) =
          List.filter (fun r => _parse_bool r.enabled) rest := by
        simp [List.filter_cons, hb2]
      rw [hf, read_cons, read_tool_disabled r hb2]
      exact ih

lemma csv_all_enabled (rs : List CsvRecord) (ts : List Tool)
    (h : read_tools_from_csv rs = .ok ts) : ∀ t ∈ ts, t.enabled = true := by
  induction rs generalizing ts with
  | nil =>
    intro t ht
    have h0 : ([] : List Tool) = ts := Except.ok.inj h
    subst h0
    exact absurd ht (by simp)
  | cons r rest ih =>
    intro t ht
    rw [read_cons] at h
    cases hr : read_tool r with
    | error e => rw [hr] at h; exact absurd h (by simp)
    | ok o =>
      rw [hr] at h
      cases o with
      | none => exact ih ts h t ht
      | some t0 =>
        cases hrest : read_tools_from_csv rest with
        | error e => rw [hrest] at h; exact absurd h (by simp)
        | ok ts2 =>
          rw [hrest] at h
          have hts : t0 :: ts2 = ts := Except.ok.inj h
          subst hts
          rcases List.mem_cons.mp ht with rfl | hmem
          · exact read_tool_enabled_flag r t hr
          · exact ih ts2 hrest t hmem

/-- C10: a CSV record whose `enabled` field trims to one of
`{0, false, False, FALSE}` is skipped before any of its numeric fields are
parsed — reading a record list equals reading its enabled-only filtering,
so a disabled row with malformed row/col/diameter values never raises an
input error and never appears in the returned tool list — and every tool
that is returned has `enabled = true`. -/
theorem csv_disabled_rows_skipped :
    (∀ rs : List CsvRecord,
      read_tools_from_csv rs =
        read_tools_from_csv (rs.filter fun r => _parse_bool r.enabled)) ∧
    ∀ (rs : List CsvRecord) (ts : List Tool),
      read_tools_from_csv rs = .ok ts → ∀ t ∈ ts, t.enabled = true :=
  ⟨csv_skip_filter, csv_all_enabled⟩

/-- A disabled record (enabled trims to `"0"`) whose numeric fields are
all malformed or missing. -/
def c10_bad : CsvRecord :=
  { name := some "BAD", row := some "zz", col := some "-", handle_d_mm := some "x",
    shaft_d_mm := none, enabled := some " 0 " }

/-- A well-formed enabled record. -/
def c10_good : CsvRecord :=
  { name := some "T10", row := some "0", col := some "0",
    handle_d_mm := some "18", shaft_d_mm := some "5", enabled := some "1" }

/-- The tool list the reader returns for `[c10_bad, c10_good]`. -/
def c10_tools : List Tool :=
  [{ name := "T10", row := 0, col := 0,
     handle_d_mm := ((18 : ℕ) : ℚ), shaft_d_mm := ((5 : ℕ) : ℚ) }]

/-- Witness for `csv_disabled_rows_skipped`: the malformed disabled record
is skipped (reading equals reading the filtered list, which drops it, and
succeeds), and the returned tool is enabled. -/
theorem csv_disabled_rows_skipped_witness :
    read_tools_from_csv [c10_bad, c10_good] =
      read_tools_from_csv ([c10_bad, c10_good].filter fun r => _parse_bool r.enabled) ∧
    ∀ t ∈ c10_tools, t.enabled = true :=
  ⟨csv_disabled_rows_skipped.1 [c10_bad, c10_good],
   csv_disabled_rows_skipped.2 [c10_bad, c10_good] c10_tools rfl⟩

/-! ## Claim C4: unmatched edge lookups -/

lemma chamfer_aux_spec (m : List ((Int × Int) × Edge)) (p : Params)
    (tools : List Tool) :
    (_chamfer_holes_aux m p tools).2 =
      (tools.filter fun t => (edge_lookup m (t.row, t.col)).isNone).map chamfer_warn ∧
    (_chamfer_holes_aux m p tools).1.length =
      (tools.filter fun t => (edge_lookup m (t.row, t.col)).isSome).length := by
  induction tools with
  | nil => exact ⟨rfl, rfl⟩
  | cons t ts ih =>
    unfold _chamfer_holes_aux
    cases hl : edge_lookup m (t.row, t.col) with
    | none => simp [hl, List.filter_cons, ih.1, ih.2]
    | some e => simp [hl, List.filter_cons, ih.1, ih.2]

/-- C4 (amended): no unmatched edge lookup ever aborts the build (the
build is a total function of its inputs).  An unmatched chamfer lookup for
an enabled tool records the non-fatal warning string for exactly that
tool, while the tools whose lookups match still receive their chamfers
(one chamfer operation per matched tool); an unmatched countersink lookup
for a mount hole's back-face circle, however, is silently skipped: the
returned warnings list does not depend on the body edges seen by the
countersink scan at all. -/
theorem unmatched_edge_lookups (d : DesignState) (tools : List Tool) (L : Layout)
    (p : Params) (ms : String) (ca : ℚ) (che cke cke2 : List Edge) :
    (build_holder d tools L p ms ca che cke).warnings =
      (build_holder d tools L p ms ca che cke2).warnings ∧
    (build_holder d tools L p ms ca che cke).warnings =
      ((tools.filter fun t =>
          (edge_lookup (_collect_hole_edges che tools L.centers p)
            (t.row, t.col)).isNone).map chamfer_warn) ++
        (_add_text_labels tools L p).2 ∧
    (_chamfer_holes che tools L p).1.length =
      (tools.filter fun t =>
        (edge_lookup (_collect_hole_edges che tools L.centers p)
          (t.row, t.col)).isSome).length := by
  refine ⟨rfl, ?_, ?_⟩
  · show build_warnings tools L p che = _
    unfold build_warnings _chamfer_holes
    rw [(chamfer_aux_spec _ p tools).1]
  · unfold _chamfer_holes
    exact (chamfer_aux_spec _ p tools).2

/-- Default parameters with `text_y_dist = 0`, so the single tool's label
is not clamped and the build has no label warnings. -/
def c4_params : Params := { default_params with text_y_dist := 0 }

/-- The layout of the one-tool input under `c4_params`. -/
def c4_L : Layout := compute_layout' c2_tools c4_params

/-- A body edge list containing the matching hole-top circle for the one
tool, so the chamfer scan succeeds and records no warning. -/
def c4_cham_edges : List Edge :=
  c2_tools.map fun t =>
    { circular := true
      cx := mm_to_cm (c4_L.centers (t.row, t.col)).1
      cy := mm_to_cm (c4_L.centers (t.row, t.col)).2
      cz := mm_to_cm (row_z c4_params t.row)
      radius := (t.shaft_d_mm + c4_params.hole_buffer) / 20 }

/-- A circular edge nowhere near the mounting plate's back face: the
countersink scan matches nothing. -/
def c4_bad_edge : Edge :=
  { circular := true, cx := 0, cy := 0, cz := 0, radius := 1 }

/-- C4 counterexample: in a `countersink` build whose back-face edge scan
finds no matching circle for any of the four mount holes, the returned
warnings list is empty — no warning is recorded for the unmatched
countersink lookups, contradicting the claim — while only the single tool
chamfer was applied (no countersink chamfer). -/
theorem countersink_unmatched_no_warning :
    (build_holder ⟨[], 0⟩ c2_tools c4_L c4_params "countersink" 90
        c4_cham_edges [c4_bad_edge]).warnings = [] ∧
    ((build_holder ⟨[], 0⟩ c2_tools c4_L c4_params "countersink" 90
        c4_cham_edges [c4_bad_edge]).ops.filter is_chamfer).length = 1 := by
  constructor <;>
  norm_num [build_holder, build_warnings, build_ops, c4_L, c4_cham_edges,
    c4_bad_edge, c2_tools, c4_params, default_params,
    _build_base, _build_steps, _create_tool_holes, _chamfer_holes,
    _chamfer_holes_aux, _collect_hole_edges, centers_keys, edge_lookup,
    edge_matches, edge_tol, row_z, mm_to_cm, chamfer_warn,
    _add_text_labels, rows_in_order, label_row, label_y, clamp_warn,
    _create_mount_holes, csk_edge_matches, base_depth,
    compute_layout', col_width, col_occ, col_max, max_col_of,
    row_depth, row_occ, row_max, max_row_of,
    sum_upto_zero, sum_upto_one, sum_upto_two,
    List.find?, List.filter, is_chamfer,
    List.foldl, abs_of_nonneg, abs_of_nonpos,
    str_lower_none, str_lower_cbore, str_lower_csk]

/-! ## Claims C5 and C6: regeneration and mount-style invariance -/

/-- C5: for every run of the builder, any previously generated occurrence
with the generated identity `ScrewdriverHolder_GEN` is deleted before
rebuilding — after a run at most one such occurrence exists — and the
operation plan does not depend on the prior document state at all, so
rebuilding with identical tool inputs and parameters yields identical
operation counts (regeneration is idempotent). -/
theorem regeneration_idempotent (d1 d2 : DesignState) (tools : List Tool)
    (L : Layout) (p : Params) (ms : String) (ca : ℚ) (che cke : List Edge) :
    (build_holder d1 tools L p ms ca che cke).ops =
      (build_holder d2 tools L p ms ca che cke).ops ∧
    ((build_holder d1 tools L p ms ca che cke).state.occ_names.count gen_name) ≤ 1 := by
  refine ⟨rfl, ?_⟩
  unfold build_holder
  by_cases h : (d1.occ_names.isEmpty && d1.root_bodies == 0) = true
  · simp only [h, if_true]
    have he : d1.occ_names = [] := by
      have h2 := (Bool.and_eq_true _ _).mp h
      exact List.isEmpty_iff.mp h2.1
    simp [he]
  · simp only [h, Bool.false_eq_true, if_false]
    rw [List.count_append]
    have h0 : ((d1.occ_names.filter fun s => s ≠ gen_name).count gen_name) = 0 := by
      apply List.count_eq_zero.mpr
      intro hmem
      have hm := List.mem_filter.mp hmem
      simp at hm
    rw [h0]
    simp

/-- Whatever the mount style, `_create_mount_holes` issues exactly four
through-all cuts (the mount holes); the finishing never adds one. -/
lemma mount_filter_thru (L : Layout) (p : Params) (ca : ℚ) (cke : List Edge)
    (s : String) :
    ((_create_mount_holes L p s ca cke).filter is_through_all).length = 4 := by
  unfold _create_mount_holes
  dsimp only
  split_ifs <;>
    simp [is_through_all, List.filter_append, List.filter_cons, List.filter_map,
      Function.comp]

/-- Whatever the mount style, `_create_mount_holes` issues exactly one
single-profile extrude (the plate). -/
lemma mount_filter_addsimple (L : Layout) (p : Params) (ca : ℚ) (cke : List Edge)
    (s : String) :
    ((_create_mount_holes L p s ca cke).filter is_add_simple).length = 1 := by
  unfold _create_mount_holes
  dsimp only
  split_ifs <;>
    simp [is_add_simple, List.filter_append, List.filter_cons, List.filter_map,
      Function.comp]

/-- `_create_mount_holes` never issues a text region. -/
lemma mount_filter_text (L : Layout) (p : Params) (ca : ℚ) (cke : List Edge)
    (s : String) :
    ((_create_mount_holes L p s ca cke).filter is_text).length = 0 := by
  unfold _create_mount_holes
  dsimp only
  split_ifs <;>
    simp [is_text, List.filter_append, List.filter_cons, List.filter_map,
      Function.comp]

/-- `_create_mount_holes` never issues a two-distance (tool-hole) chamfer:
its countersink chamfers use the distance-and-angle profile. -/
lemma mount_filter_toolchamfer (L : Layout) (p : Params) (ca : ℚ) (cke : List Edge)
    (s : String) :
    ((_create_mount_holes L p s ca cke).filter is_tool_chamfer).length = 0 := by
  unfold _create_mount_holes
  dsimp only
  split_ifs <;>
    simp [is_tool_chamfer, List.filter_append, List.filter_cons, List.filter_map,
      Function.comp]

/-- C6: for any fixed tool list, layout, numeric parameters and backend
edge snapshots, runs of the geometry build that differ only in
`mount_style` (`none` vs `counterbore` vs `countersink`) produce the same
number of through-all cut operations — and also the same numbers of
single-profile extrudes, text regions and tool-hole chamfers; only the
finishing features (counterbore pockets, countersink chamfers) differ. -/
theorem mount_style_through_hole_invariance (d : DesignState) (tools : List Tool)
    (L : Layout) (p : Params) (ca : ℚ) (che cke : List Edge) :
    (((build_holder d tools L p "none" ca che cke).ops.filter is_through_all).length =
      ((build_holder d tools L p "counterbore" ca che cke).ops.filter is_through_all).length ∧
    ((build_holder d tools L p "none" ca che cke).ops.filter is_through_all).length =
      ((build_holder d tools L p "countersink" ca che cke).ops.filter is_through_all).length) ∧
    (((build_holder d tools L p "none" ca che cke).ops.filter is_add_simple).length =
      ((build_holder d tools L p "counterbore" ca che cke).ops.filter is_add_simple).length ∧
    ((build_holder d tools L p "none" ca che cke).ops.filter is_add_simple).length =
      ((build_holder d tools L p "countersink" ca che cke).ops.filter is_add_simple).length) ∧
    (((build_holder d tools L p "none" ca che cke).ops.filter is_text).length =
      ((build_holder d tools L p "counterbore" ca che cke).ops.filter is_text).length ∧
    ((build_holder d tools L p "none" ca che cke).ops.filter is_text).length =
      ((build_holder d tools L p "countersink" ca che cke).ops.filter is_text).length) ∧
    (((build_holder d tools L p "none" ca che cke).ops.filter is_tool_chamfer).length =
      ((build_holder d tools L p "counterbore" ca che cke).ops.filter is_tool_chamfer).length ∧
    ((build_holder d tools L p "none" ca che cke).ops.filter is_tool_chamfer).length =
      ((build_holder d tools L p "countersink" ca che cke).ops.filter is_tool_chamfer).length) := by
  refine ⟨⟨?_, ?_⟩, ⟨?_, ?_⟩, ⟨?_, ?_⟩, ⟨?_, ?_⟩⟩ <;>
  · show ((build_ops tools L p _ ca che cke).filter _).length =
      ((build_ops tools L p _ ca che cke).filter _).length
    unfold build_ops
    simp only [List.filter_append, List.length_append,
      mount_filter_thru, mount_filter_addsimple, mount_filter_text,
      mount_filter_toolchamfer]
